import Mathlib

/-!
# sensu-check-prometheus-metric: the check's validation and evaluation rule

A shallow embedding of `main.go`: the package-level `plugin` configuration,
`checkArgs` and `executeCheck`.  The Prometheus client, the clock and standard
output are the program's environment; they are made explicit as a `Library`
oracle and a `World` state that is passed through every call.
-/

namespace CheckPrometheusMetric

/-! ## float64 -/

/-- An IEEE 754 binary64 value (Go's `float64`), by its three bit fields. -/
structure Float64 where
  sign : Bool
  exponent : Fin 2048
  fraction : Fin 4503599627370496
deriving DecidableEq, Repr

namespace Float64

/-- NaN: all exponent bits set and a non-zero fraction. -/
def isNaN (x : Float64) : Bool :=
  x.exponent.val == 2047 && x.fraction.val != 0

/-- The absolute value of `x` in units of `2^-1074`: subnormals
(`exponent = 0`) are `fraction`, normal numbers are
`(2^52 + fraction) * 2^(exponent - 1)`.  An infinity
(`exponent = 2047`, `fraction = 0`) gets `2^2098`, above every finite value. -/
def magnitude (x : Float64) : Nat :=
  if x.exponent.val = 0 then x.fraction.val
  else (4503599627370496 + x.fraction.val) * 2 ^ (x.exponent.val - 1)

/-- The signed value of `x` in units of `2^-1074`; both zeros give `0`. -/
def scaled (x : Float64) : Int :=
  if x.sign then -(x.magnitude : Int) else (x.magnitude : Int)

/-- Go's `a > b` on `float64`: false as soon as one operand is NaN. -/
def gt (a b : Float64) : Bool :=
  !a.isNaN && !b.isNaN && decide (b.scaled < a.scaled)

/-- Go's `a <= b` on `float64`: false as soon as one operand is NaN. -/
def le (a b : Float64) : Bool :=
  !a.isNaN && !b.isNaN && decide (a.scaled ≤ b.scaled)

/-- Go's `a == b` on `float64`: false as soon as one operand is NaN, and
`-0 == +0`. -/
def eq (a b : Float64) : Bool :=
  !a.isNaN && !b.isNaN && decide (a.scaled = b.scaled)

/-- The constant `0`. -/
def zero : Float64 := ⟨false, 0, 0⟩

/-- The value `-0`. -/
def negZero : Float64 := ⟨true, 0, 0⟩

/-- A quiet NaN. -/
def nan : Float64 := ⟨false, 2047, 2251799813685248⟩

/-- The value `50`, that is `1.5625 * 2^5`. -/
def f50 : Float64 := ⟨false, 1028, 2533274790395904⟩

/-- The value `80`, that is `1.25 * 2^6`. -/
def f80 : Float64 := ⟨false, 1029, 1125899906842624⟩

/-- The value `85`, that is `1.328125 * 2^6`. -/
def f85 : Float64 := ⟨false, 1029, 1477743627730944⟩

/-- The value `90`, that is `1.40625 * 2^6`. -/
def f90 : Float64 := ⟨false, 1029, 1829587348619264⟩

/-- The value `95`, that is `1.484375 * 2^6`. -/
def f95 : Float64 := ⟨false, 1029, 2181431069507584⟩

/-- The value `-5`, that is `-1.25 * 2^2`. -/
def fNeg5 : Float64 := ⟨true, 1025, 1125899906842624⟩

end Float64

/-! ## Errors and statuses -/

/-- A Go `error` value, by the text its `Error()` method returns. -/
structure GoError where
  msg : String
deriving DecidableEq, Repr

/-- The error built by `fmt.Errorf` once its format has been expanded. -/
def Errorf (msg : String) : GoError := ⟨msg⟩

/-- The constant `sensu.CheckStateOK`. -/
def CheckStateOK : Int := 0

/-- The constant `sensu.CheckStateWarning`. -/
def CheckStateWarning : Int := 1

/-- The constant `sensu.CheckStateCritical`. -/
def CheckStateCritical : Int := 2

/-! ## Configuration -/

/-- The fields of `Config` that the two callbacks read. -/
structure Config where
  Host : String
  Port : String
  Query : String
  Critical : Float64
  Warning : Float64
deriving DecidableEq, Repr

/-- One entry of `options`: a `sensu.PluginConfigOption`. -/
structure ConfigOption where
  Path : String
  Env : String
  Argument : String
  Shorthand : String
  Usage : String
deriving DecidableEq, Repr

/-- The package-level `options` slice, in source order. -/
def options : List ConfigOption :=
  [ ⟨"host", "SENSU_CHECK_PROMETHEUS_METRIC_HOST", "host", "H", "Prometheus host"⟩,
    ⟨"port", "SENSU_CHECK_PROMETHEUS_METRIC_PORT", "port", "p", "Prometheus port"⟩,
    ⟨"query", "SENSU_CHECK_PROMETHEUS_METRIC_QUERY", "query", "q", "Prometheus query"⟩,
    ⟨"critical", "SENSU_CHECK_PROMETHEUS_METRIC_CRITICAL", "critical", "c",
      "Critical threshold"⟩,
    ⟨"warning", "SENSU_CHECK_PROMETHEUS_METRIC_WARNING", "warning", "w",
      "Warning threshold"⟩ ]

/-- The five tests of `checkArgs`, in the order of `options`: a string field
is unset when it is empty, a threshold when `== 0` is true for it. -/
def unset (c : Config) : List Bool :=
  [c.Host == "", c.Port == "", c.Query == "", c.Critical.eq Float64.zero,
    c.Warning.eq Float64.zero]

/-! ## The Prometheus data model (`github.com/prometheus/common/model`) -/

/-- The enumeration `model.ValueType`. -/
inductive ValueType where
  | ValNone
  | ValScalar
  | ValVector
  | ValMatrix
  | ValString
deriving DecidableEq, Repr

/-- The method `ValueType.String`, which `%s` prints. -/
def ValueType.String : ValueType → String
  | .ValNone => "<ValNone>"
  | .ValScalar => "scalar"
  | .ValVector => "vector"
  | .ValMatrix => "matrix"
  | .ValString => "string"

/-- A `model.Sample`: label set, value and timestamp (milliseconds). -/
structure Sample where
  Metric : List (String × String)
  Value : Float64
  Timestamp : Int
deriving DecidableEq, Repr

/-- A `model.SampleStream`: label set and `(timestamp, value)` pairs. -/
structure SampleStream where
  Metric : List (String × String)
  Values : List (Int × Float64)
deriving DecidableEq, Repr

/-- The implementations of the interface `model.Value`. -/
inductive Value where
  | scalar (value : Float64) (timestamp : Int)
  | vector (samples : List Sample)
  | matrix (streams : List SampleStream)
  | string (value : String) (timestamp : Int)
deriving DecidableEq, Repr

/-- The method `Value.Type`. -/
def Value.Type : Value → ValueType
  | .scalar _ _ => .ValScalar
  | .vector _ => .ValVector
  | .matrix _ => .ValMatrix
  | .string _ _ => .ValString

/-! ## Environment -/

/-- An `api.Client`, by the address it was built for. -/
structure Client where
  Address : String
deriving DecidableEq, Repr

/-- The three results of `promClient.Query`.  `result` is looked at only when
`err` is `none`. -/
structure QueryReply where
  result : Value
  warnings : List String
  err : Option GoError
deriving DecidableEq, Repr

/-- The code outside the repository that `executeCheck` calls.
`NewClient` is `api.NewClient` applied to the configured address; `Query` is
`promClient.Query` under the 10 second deadline, given the number of queries
issued before it, the client and the query text (the clock and the network are
part of the oracle); `fmtFloat` is the text `fmt` writes for a `%f` verb. -/
structure Library where
  NewClient : String → Except GoError Client
  Query : Nat → Client → String → QueryReply
  fmtFloat : Float64 → String

/-- The state the callbacks run in: the package-level `plugin`, the texts
written to standard output so far (one entry per `fmt.Printf` call) and the
queries sent to the backend so far. -/
structure World where
  plugin : Config
  stdout : List String
  queries : List (Client × String)
deriving DecidableEq, Repr

/-- What a callback returns (`(int, error)`) together with the state it
leaves behind. -/
structure Outcome where
  status : Int
  err : Option GoError
  world : World
deriving DecidableEq, Repr

/-- The text `%v` prints for a `[]string`. -/
def fmtStrings (xs : List String) : String :=
  "[" ++ " ".intercalate xs ++ "]"

/-! ## The callbacks -/

/-- The function `checkArgs`. -/
def checkArgs (w : World) : Outcome :=
  if w.plugin.Host == "" then
    ⟨CheckStateWarning, some (Errorf
      "--host or SENSU_CHECK_PROMETHEUS_METRIC_HOST environment variable is required"), w⟩
  else if w.plugin.Port == "" then
    ⟨CheckStateWarning, some (Errorf
      "--port or SENSU_CHECK_PROMETHEUS_METRIC_PORT environment variable is required"), w⟩
  else if w.plugin.Query == "" then
    ⟨CheckStateWarning, some (Errorf
      "--query or SENSU_CHECK_PROMETHEUS_METRIC_QUERY environment variable is required"), w⟩
  else if w.plugin.Critical.eq Float64.zero then
    ⟨CheckStateWarning, some (Errorf
      "--critical or SENSU_CHECK_PROMETHEUS_METRIC_CRITICAL environment variable is required"), w⟩
  else if w.plugin.Warning.eq Float64.zero then
    ⟨CheckStateWarning, some (Errorf
      "--warning or SENSU_CHECK_PROMETHEUS_METRIC_WARNING environment variable is required"), w⟩
  else
    ⟨CheckStateOK, none, w⟩

/-- Writes one text to standard output (`fmt.Printf`). -/
def World.printf (w : World) (text : String) : World :=
  { w with stdout := w.stdout ++ [text] }

/-- The type assertion `result.(model.Vector)`.  It is made only after
`result.Type()` was found to be `model.ValVector`, which `model.Vector` alone
reports, so the assertion cannot fail. -/
def Value.assertVector : (result : Value) → result.Type = ValueType.ValVector → List Sample
  | .vector samples, _ => samples
  | .scalar _ _, h => nomatch h
  | .matrix _, h => nomatch h
  | .string _ _, h => nomatch h

/-- Records one call of `promClient.Query` with the configured query. -/
def World.logQuery (w : World) (client : Client) : World :=
  { w with queries := w.queries ++ [(client, w.plugin.Query)] }

/-- The address `fmt.Sprintf("http://%s:%s", plugin.Host, plugin.Port)`. -/
def address (c : Config) : String :=
  "http://" ++ c.Host ++ ":" ++ c.Port

/-- The function `executeCheck`.  The three results of `promClient.Query` are
taken apart by the inner match, whose second component is the world once the
query has been sent; the context, its deferred `cancel` and `time.Now()` belong
to the `Query` oracle.  The elements of a `model.Vector` are taken to be
non-nil. -/
def executeCheck (lib : Library) (w : World) : Outcome :=
  match lib.NewClient (address w.plugin) with
  | .error err => ⟨CheckStateCritical, some err, w⟩
  | .ok client =>
    match lib.Query w.queries.length client w.plugin.Query, w.logQuery client with
    | ⟨_, _, some err⟩, w => ⟨CheckStateCritical, some err, w⟩
    | ⟨result, warnings, none⟩, w =>
      if warnings.length > 0 then
        ⟨CheckStateWarning, some (Errorf ("warnings: " ++ fmtStrings warnings)), w⟩
      else if ht : result.Type ≠ ValueType.ValVector then
        ⟨CheckStateCritical, some (Errorf ("unexpected result type "
          ++ result.Type.String)), w⟩
      else
        let vector := result.assertVector (not_not.mp ht)
        if h0 : vector.length = 0 then
          ⟨CheckStateCritical, some (Errorf "no metrics returned"), w⟩
        else if vector.length > 1 then
          ⟨CheckStateCritical, some (Errorf "more than one metric returned"), w⟩
        else
          let metric := vector.get ⟨0, Nat.pos_of_ne_zero h0⟩
          if metric.Value.gt w.plugin.Critical then
            ⟨CheckStateCritical, none, w.printf ("CheckPrometheusMetric CRITICAL: "
              ++ w.plugin.Query ++ " is " ++ lib.fmtFloat metric.Value)⟩
          else if metric.Value.gt w.plugin.Warning then
            ⟨CheckStateWarning, none, w.printf ("CheckPrometheusMetric WARNING: "
              ++ w.plugin.Query ++ " is " ++ lib.fmtFloat metric.Value)⟩
          else
            ⟨CheckStateOK, none, w.printf ("CheckPrometheusMetric OK: "
              ++ w.plugin.Query ++ " is " ++ lib.fmtFloat metric.Value)⟩

/-! ## Fixtures for concrete runs -/

/-- The `%f` text of the values used in the concrete runs below; the table
has no entry (the empty text) for any other value. -/
def fmtFloatTable (v : Float64) : String :=
  if v = Float64.f95 then "95.000000"
  else if v = Float64.f90 then "90.000000"
  else if v = Float64.f85 then "85.000000"
  else if v = Float64.f80 then "80.000000"
  else if v = Float64.f50 then "50.000000"
  else ""

/-- A backend that accepts every address and answers every query with
`reply`. -/
def answering (reply : QueryReply) : Library :=
  ⟨fun a => .ok ⟨a⟩, fun _ _ _ => reply, fmtFloatTable⟩

/-- A backend whose client cannot be built: `api.NewClient` fails with `e`. -/
def unreachable (e : GoError) : Library :=
  ⟨fun _ => .error e, fun _ _ _ => ⟨.vector [], [], none⟩, fmtFloatTable⟩

/-- A sample with no labels at timestamp 0. -/
def sampleOf (v : Float64) : Sample := ⟨[], v, 0⟩

/-- The world before the check runs, for host `prom`, port `9090` and
query `up`. -/
def startWorld (critical warning : Float64) : World :=
  ⟨⟨"prom", "9090", "up", critical, warning⟩, [], []⟩

/-- A configuration without host and with warning `0`, critical `90`. -/
def hostlessWorld : World :=
  ⟨⟨"", "9090", "up", Float64.f90, Float64.zero⟩, [], []⟩

/-- A configuration with all strings set and both thresholds `0`. -/
def thresholdlessWorld : World :=
  ⟨⟨"prom", "9090", "up", Float64.zero, Float64.zero⟩, [], []⟩

/-- A successful reply without warnings that carries one sample of value `v`. -/
def oneSample (v : Float64) : QueryReply :=
  ⟨.vector [sampleOf v], [], none⟩

/-- A successful reply that carries one sample of value 95 together with two
backend warnings. -/
def warnedReply : QueryReply :=
  ⟨.vector [sampleOf Float64.f95], ["slow query", "partial data"], none⟩

/-- A failed query: the deadline passed, whatever else the call returns. -/
def timedOutReply : QueryReply :=
  ⟨.vector [sampleOf Float64.f95], ["slow query"], some ⟨"context deadline exceeded"⟩⟩

/-- The text `s` with its ASCII letters in upper case. -/
def upperCase (s : String) : String :=
  ⟨s.data.map Char.toUpper⟩

/-- The word that names a status in the status line. -/
def statusWord (status : Int) : String :=
  if status = CheckStateCritical then "CRITICAL"
  else if status = CheckStateWarning then "WARNING"
  else "OK"

/-! ## Facts about `float64` comparison -/

set_option exponentiation.threshold 4096

theorem Float64.gt_iff (a b : Float64) :
    a.gt b = true ↔ a.isNaN = false ∧ b.isNaN = false ∧ b.scaled < a.scaled := by
  simp [Float64.gt, and_assoc]

theorem Float64.le_iff (a b : Float64) :
    a.le b = true ↔ a.isNaN = false ∧ b.isNaN = false ∧ a.scaled ≤ b.scaled := by
  simp [Float64.le, and_assoc]

theorem Float64.eq_iff (a b : Float64) :
    a.eq b = true ↔ a.isNaN = false ∧ b.isNaN = false ∧ a.scaled = b.scaled := by
  simp [Float64.eq, and_assoc]

/-- A value above a bound stays above it when it grows. -/
theorem Float64.gt_of_gt_of_le {a b c : Float64} (h : a.gt c = true) (hab : a.le b = true) :
    b.gt c = true := by
  rw [Float64.gt_iff] at h ⊢
  rw [Float64.le_iff] at hab
  exact ⟨hab.2.1, h.2.1, lt_of_lt_of_le h.2.2 hab.2.2⟩

/-- A value above the larger of two bounds is above the smaller one. -/
theorem Float64.gt_of_gt_of_ge {a b c : Float64} (h : a.gt b = true) (hcb : c.le b = true) :
    a.gt c = true := by
  rw [Float64.gt_iff] at h ⊢
  rw [Float64.le_iff] at hcb
  exact ⟨h.1, hcb.1, lt_of_le_of_lt hcb.2.2 h.2.2⟩

theorem Float64.not_gt_of_le {a b : Float64} (h : a.le b = true) : a.gt b = false := by
  rw [Float64.le_iff] at h
  cases hg : a.gt b
  · rfl
  · rw [Float64.gt_iff] at hg
    exact absurd hg.2.2 (not_lt.mpr h.2.2)

theorem Float64.not_gt_of_eq {a b : Float64} (h : a.eq b = true) : a.gt b = false := by
  rw [Float64.eq_iff] at h
  exact Float64.not_gt_of_le ((Float64.le_iff a b).mpr ⟨h.1, h.2.1, le_of_eq h.2.2⟩)

/-- The bit patterns above stand for the numbers they are named after
(magnitudes are in units of `2^-1074`). -/
theorem Float64.magnitude_constants :
    Float64.f50.magnitude = 50 * 2 ^ 1074 ∧ Float64.f80.magnitude = 80 * 2 ^ 1074 ∧
    Float64.f85.magnitude = 85 * 2 ^ 1074 ∧ Float64.f90.magnitude = 90 * 2 ^ 1074 ∧
    Float64.f95.magnitude = 95 * 2 ^ 1074 ∧ Float64.fNeg5.magnitude = 5 * 2 ^ 1074 ∧
    Float64.fNeg5.sign = true ∧ Float64.zero.scaled = 0 ∧ Float64.negZero.scaled = 0 ∧
    Float64.nan.isNaN = true := by
  refine ⟨?_, ?_, ?_, ?_, ?_, ?_, ?_, ?_, ?_, ?_⟩ <;> decide

/-! ## The paths of `executeCheck` -/

theorem executeCheck_client_error {lib : Library} {w : World} {e : GoError}
    (hc : lib.NewClient (address w.plugin) = .error e) :
    executeCheck lib w = ⟨CheckStateCritical, some e, w⟩ := by
  unfold executeCheck
  rw [hc]

theorem executeCheck_query_error {lib : Library} {w : World} {client : Client} {e : GoError}
    (hc : lib.NewClient (address w.plugin) = .ok client)
    (he : (lib.Query w.queries.length client w.plugin.Query).err = some e) :
    executeCheck lib w = ⟨CheckStateCritical, some e, w.logQuery client⟩ := by
  cases hq : lib.Query w.queries.length client w.plugin.Query with
  | mk result warnings err =>
    rw [hq] at he
    simp only at he
    subst he
    unfold executeCheck
    rw [hc]
    simp only
    rw [hq]

theorem executeCheck_warnings {lib : Library} {w : World} {client : Client}
    (hc : lib.NewClient (address w.plugin) = .ok client)
    (he : (lib.Query w.queries.length client w.plugin.Query).err = none)
    (hw : (lib.Query w.queries.length client w.plugin.Query).warnings ≠ []) :
    executeCheck lib w = ⟨CheckStateWarning, some (Errorf ("warnings: " ++
      fmtStrings (lib.Query w.queries.length client w.plugin.Query).warnings)),
      w.logQuery client⟩ := by
  cases hq : lib.Query w.queries.length client w.plugin.Query with
  | mk result warnings err =>
    rw [hq] at he hw
    simp only at he hw
    subst he
    have hlen : warnings.length > 0 := List.length_pos.mpr hw
    unfold executeCheck
    rw [hc]
    simp only
    rw [hq]
    simp only [hlen, if_true]

theorem executeCheck_not_vector {lib : Library} {w : World} {client : Client}
    (hc : lib.NewClient (address w.plugin) = .ok client)
    (he : (lib.Query w.queries.length client w.plugin.Query).err = none)
    (hw : (lib.Query w.queries.length client w.plugin.Query).warnings = [])
    (ht : (lib.Query w.queries.length client w.plugin.Query).result.Type
      ≠ ValueType.ValVector) :
    executeCheck lib w = ⟨CheckStateCritical, some (Errorf ("unexpected result type " ++
      (lib.Query w.queries.length client w.plugin.Query).result.Type.String)),
      w.logQuery client⟩ := by
  cases hq : lib.Query w.queries.length client w.plugin.Query with
  | mk result warnings err =>
    rw [hq] at he hw ht
    simp only at he hw ht
    subst he hw
    unfold executeCheck
    rw [hc]
    simp only
    rw [hq]
    simp only [List.length_nil, gt_iff_lt, lt_self_iff_false, if_false, dif_pos ht]

/-- On a successful query without warnings that returns a vector,
`executeCheck` is decided by the samples of the vector alone. -/
theorem executeCheck_vector {lib : Library} {w : World} {client : Client}
    {vector : List Sample}
    (hc : lib.NewClient (address w.plugin) = .ok client)
    (hq : lib.Query w.queries.length client w.plugin.Query = ⟨.vector vector, [], none⟩) :
    executeCheck lib w =
      if h0 : vector.length = 0 then
        ⟨CheckStateCritical, some (Errorf "no metrics returned"), w.logQuery client⟩
      else if vector.length > 1 then
        ⟨CheckStateCritical, some (Errorf "more than one metric returned"),
          w.logQuery client⟩
      else if (vector.get ⟨0, Nat.pos_of_ne_zero h0⟩).Value.gt w.plugin.Critical then
        ⟨CheckStateCritical, none, (w.logQuery client).printf
          ("CheckPrometheusMetric CRITICAL: " ++ w.plugin.Query ++ " is "
            ++ lib.fmtFloat (vector.get ⟨0, Nat.pos_of_ne_zero h0⟩).Value)⟩
      else if (vector.get ⟨0, Nat.pos_of_ne_zero h0⟩).Value.gt w.plugin.Warning then
        ⟨CheckStateWarning, none, (w.logQuery client).printf
          ("CheckPrometheusMetric WARNING: " ++ w.plugin.Query ++ " is "
            ++ lib.fmtFloat (vector.get ⟨0, Nat.pos_of_ne_zero h0⟩).Value)⟩
      else
        ⟨CheckStateOK, none, (w.logQuery client).printf
          ("CheckPrometheusMetric OK: " ++ w.plugin.Query ++ " is "
            ++ lib.fmtFloat (vector.get ⟨0, Nat.pos_of_ne_zero h0⟩).Value)⟩ := by
  unfold executeCheck
  rw [hc]
  simp only
  rw [hq]
  rfl

theorem executeCheck_no_sample {lib : Library} {w : World} {client : Client}
    (hc : lib.NewClient (address w.plugin) = .ok client)
    (hq : lib.Query w.queries.length client w.plugin.Query = ⟨.vector [], [], none⟩) :
    executeCheck lib w =
      ⟨CheckStateCritical, some (Errorf "no metrics returned"), w.logQuery client⟩ := by
  rw [executeCheck_vector hc hq]
  rfl

theorem executeCheck_many_samples {lib : Library} {w : World} {client : Client}
    {s₁ s₂ : Sample} {rest : List Sample}
    (hc : lib.NewClient (address w.plugin) = .ok client)
    (hq : lib.Query w.queries.length client w.plugin.Query
      = ⟨.vector (s₁ :: s₂ :: rest), [], none⟩) :
    executeCheck lib w =
      ⟨CheckStateCritical, some (Errorf "more than one metric returned"),
        w.logQuery client⟩ := by
  rw [executeCheck_vector hc hq]
  simp

theorem executeCheck_one_sample {lib : Library} {w : World} {client : Client} {metric : Sample}
    (hc : lib.NewClient (address w.plugin) = .ok client)
    (hq : lib.Query w.queries.length client w.plugin.Query = ⟨.vector [metric], [], none⟩) :
    executeCheck lib w =
      if metric.Value.gt w.plugin.Critical then
        ⟨CheckStateCritical, none, (w.logQuery client).printf
          ("CheckPrometheusMetric CRITICAL: " ++ w.plugin.Query ++ " is "
            ++ lib.fmtFloat metric.Value)⟩
      else if metric.Value.gt w.plugin.Warning then
        ⟨CheckStateWarning, none, (w.logQuery client).printf
          ("CheckPrometheusMetric WARNING: " ++ w.plugin.Query ++ " is "
            ++ lib.fmtFloat metric.Value)⟩
      else
        ⟨CheckStateOK, none, (w.logQuery client).printf
          ("CheckPrometheusMetric OK: " ++ w.plugin.Query ++ " is "
            ++ lib.fmtFloat metric.Value)⟩ := by
  rw [executeCheck_vector hc hq]
  simp

/-! ## Validation: `checkArgs` -/

/-- C2: `checkArgs` returns WARNING (1) with a non-nil error exactly when the
host, the port or the query is empty or a threshold compares equal to 0, and
OK (0) with a nil error in every other case, whatever the sign and the order
of the thresholds; it leaves the configuration, standard output and the list
of queries sent to the backend as they were. -/
theorem checkArgs_rejects_iff_unset (w : World) :
    (((checkArgs w).status = CheckStateWarning ∧ (checkArgs w).err ≠ none) ↔
      (w.plugin.Host = "" ∨ w.plugin.Port = "" ∨ w.plugin.Query = "" ∨
        w.plugin.Critical.eq Float64.zero = true ∨
        w.plugin.Warning.eq Float64.zero = true)) ∧
    (((checkArgs w).status = CheckStateOK ∧ (checkArgs w).err = none) ↔
      ¬ (w.plugin.Host = "" ∨ w.plugin.Port = "" ∨ w.plugin.Query = "" ∨
        w.plugin.Critical.eq Float64.zero = true ∨
        w.plugin.Warning.eq Float64.zero = true)) ∧
    (checkArgs w).world = w := by
  unfold checkArgs
  split_ifs with h1 h2 h3 h4 h5 <;>
    simp_all [CheckStateWarning, CheckStateOK]

/-- Concrete runs of `checkArgs`: a complete configuration passes, also with
a negative threshold, with warning above critical and with a NaN threshold;
a threshold of `0` or `-0` is rejected. -/
theorem checkArgs_examples :
    checkArgs (startWorld Float64.f90 Float64.f80)
      = ⟨0, none, startWorld Float64.f90 Float64.f80⟩ ∧
    checkArgs (startWorld Float64.fNeg5 Float64.f80)
      = ⟨0, none, startWorld Float64.fNeg5 Float64.f80⟩ ∧
    checkArgs (startWorld Float64.f80 Float64.f90)
      = ⟨0, none, startWorld Float64.f80 Float64.f90⟩ ∧
    checkArgs (startWorld Float64.nan Float64.f80)
      = ⟨0, none, startWorld Float64.nan Float64.f80⟩ ∧
    (checkArgs (startWorld Float64.f90 Float64.zero)).status = 1 ∧
    (checkArgs (startWorld Float64.negZero Float64.f80)).status = 1 := by
  refine ⟨?_, ?_, ?_, ?_, ?_, ?_⟩ <;> decide

/-- C7: when `checkArgs` returns an error, the error names the flag and the
environment variable of the first entry of `options` (host, port, query,
critical, warning) whose field is unset: every earlier field is set, and the
message is `--<flag> or <ENV> environment variable is required`, where `<ENV>`
is `SENSU_CHECK_PROMETHEUS_METRIC_` followed by the flag in upper case. -/
theorem checkArgs_reports_first_unset (w : World) (hfail : (checkArgs w).err ≠ none) :
    ∃ (i : Nat) (opt : ConfigOption),
      options[i]? = some opt ∧
      (unset w.plugin)[i]? = some true ∧
      (∀ j, j < i → (unset w.plugin)[j]? = some false) ∧
      (checkArgs w).err = some (Errorf ("--" ++ opt.Argument ++ " or " ++ opt.Env
        ++ " environment variable is required")) ∧
      opt.Env = "SENSU_CHECK_PROMETHEUS_METRIC_" ++ upperCase opt.Argument := by
  unfold checkArgs at hfail ⊢
  split_ifs at hfail ⊢ with h1 h2 h3 h4 h5
  · refine ⟨0, _, rfl, by simp [unset, h1], by simp, rfl, by decide⟩
  · refine ⟨1, _, rfl, by simp [unset, h2], ?_, rfl, by decide⟩
    intro j hj
    interval_cases j
    simp [unset, h1]
  · refine ⟨2, _, rfl, by simp [unset, h3], ?_, rfl, by decide⟩
    intro j hj
    interval_cases j <;> simp [unset, h1, h2]
  · refine ⟨3, _, rfl, by simp [unset, h4], ?_, rfl, by decide⟩
    intro j hj
    interval_cases j <;> simp [unset, h1, h2, h3]
  · refine ⟨4, _, rfl, by simp [unset, h5], ?_, rfl, by decide⟩
    intro j hj
    interval_cases j <;> simp [unset, h1, h2, h3, h4]
  · exact absurd rfl hfail

theorem checkArgs_reports_first_unset_witness :
    (checkArgs hostlessWorld).err ≠ none ∧
    ∃ (i : Nat) (opt : ConfigOption),
      options[i]? = some opt ∧
      (unset hostlessWorld.plugin)[i]? = some true ∧
      (∀ j, j < i → (unset hostlessWorld.plugin)[j]? = some false) ∧
      (checkArgs hostlessWorld).err = some (Errorf ("--" ++ opt.Argument ++ " or " ++ opt.Env
        ++ " environment variable is required")) ∧
      opt.Env = "SENSU_CHECK_PROMETHEUS_METRIC_" ++ upperCase opt.Argument :=
  ⟨by decide, checkArgs_reports_first_unset hostlessWorld (by decide)⟩

/-- Concrete runs of `checkArgs`: without host and with warning `0` the host
is reported; with all strings set and both thresholds `0` the critical
threshold is reported. -/
theorem checkArgs_first_unset_examples :
    checkArgs hostlessWorld = ⟨1, some ⟨
      "--host or SENSU_CHECK_PROMETHEUS_METRIC_HOST environment variable is required"⟩,
      hostlessWorld⟩ ∧
    checkArgs thresholdlessWorld = ⟨1, some ⟨
      "--critical or SENSU_CHECK_PROMETHEUS_METRIC_CRITICAL environment variable is required"⟩,
      thresholdlessWorld⟩ := by
  refine ⟨?_, ?_⟩ <;> decide

/-! ## Threshold comparison -/

/-- C1: after a successful query without warnings that returns a vector of
exactly one sample of value `v`, `executeCheck` returns no error and the status
CRITICAL (2) exactly when `v > critical`, WARNING (1) exactly when
`v > critical` fails and `v > warning` holds, and OK (0) exactly when both
fail; as both tests are strict, `v == critical` never gives CRITICAL and
`v == warning` together with `v <= critical` gives OK. -/
theorem executeCheck_threshold_rule (lib : Library) (w : World) (client : Client)
    (metric : Sample)
    (hc : lib.NewClient (address w.plugin) = .ok client)
    (hq : lib.Query w.queries.length client w.plugin.Query = ⟨.vector [metric], [], none⟩) :
    ((executeCheck lib w).status = CheckStateCritical ↔
      metric.Value.gt w.plugin.Critical = true) ∧
    ((executeCheck lib w).status = CheckStateWarning ↔
      (metric.Value.gt w.plugin.Critical = false ∧
        metric.Value.gt w.plugin.Warning = true)) ∧
    ((executeCheck lib w).status = CheckStateOK ↔
      (metric.Value.gt w.plugin.Critical = false ∧
        metric.Value.gt w.plugin.Warning = false)) ∧
    (executeCheck lib w).err = none ∧
    (metric.Value.eq w.plugin.Critical = true →
      (executeCheck lib w).status ≠ CheckStateCritical) ∧
    (metric.Value.eq w.plugin.Warning = true → metric.Value.le w.plugin.Critical = true →
      (executeCheck lib w).status = CheckStateOK) := by
  rw [executeCheck_one_sample hc hq]
  refine ⟨?_, ?_, ?_, ?_, ?_, ?_⟩
  · cases h1 : metric.Value.gt w.plugin.Critical <;>
      cases h2 : metric.Value.gt w.plugin.Warning <;>
      simp [CheckStateCritical, CheckStateWarning, CheckStateOK]
  · cases h1 : metric.Value.gt w.plugin.Critical <;>
      cases h2 : metric.Value.gt w.plugin.Warning <;>
      simp [CheckStateCritical, CheckStateWarning, CheckStateOK]
  · cases h1 : metric.Value.gt w.plugin.Critical <;>
      cases h2 : metric.Value.gt w.plugin.Warning <;>
      simp [CheckStateCritical, CheckStateWarning, CheckStateOK]
  · cases h1 : metric.Value.gt w.plugin.Critical <;>
      cases h2 : metric.Value.gt w.plugin.Warning <;> simp
  · intro heq
    rw [Float64.not_gt_of_eq heq]
    cases h2 : metric.Value.gt w.plugin.Warning <;>
      simp [CheckStateCritical, CheckStateWarning, CheckStateOK]
  · intro heq hle
    rw [Float64.not_gt_of_le hle, Float64.not_gt_of_eq heq]
    simp

/-- The runs of the specification's example, critical = 90 and warning = 80:
95 gives CRITICAL, 85 gives WARNING, 50 gives OK and 80 gives OK. -/
theorem executeCheck_threshold_rule_witness :
    (executeCheck (answering (oneSample Float64.f95))
      (startWorld Float64.f90 Float64.f80)).status = CheckStateCritical ∧
    (executeCheck (answering (oneSample Float64.f85))
      (startWorld Float64.f90 Float64.f80)).status = CheckStateWarning ∧
    (executeCheck (answering (oneSample Float64.f50))
      (startWorld Float64.f90 Float64.f80)).status = CheckStateOK ∧
    (executeCheck (answering (oneSample Float64.f80))
      (startWorld Float64.f90 Float64.f80)).status = CheckStateOK :=
  ⟨(executeCheck_threshold_rule (answering (oneSample Float64.f95))
      (startWorld Float64.f90 Float64.f80) ⟨"http://prom:9090"⟩ (sampleOf Float64.f95)
      rfl (by decide)).1.mpr (by decide),
   (executeCheck_threshold_rule (answering (oneSample Float64.f85))
      (startWorld Float64.f90 Float64.f80) ⟨"http://prom:9090"⟩ (sampleOf Float64.f85)
      rfl (by decide)).2.1.mpr (by decide),
   (executeCheck_threshold_rule (answering (oneSample Float64.f50))
      (startWorld Float64.f90 Float64.f80) ⟨"http://prom:9090"⟩ (sampleOf Float64.f50)
      rfl (by decide)).2.2.1.mpr (by decide),
   (executeCheck_threshold_rule (answering (oneSample Float64.f80))
      (startWorld Float64.f90 Float64.f80) ⟨"http://prom:9090"⟩ (sampleOf Float64.f80)
      rfl (by decide)).2.2.2.2.2 (by decide) (by decide)⟩

/-- C9, as stated, fails: with critical = 80 and warning = 90 the value 85
lies strictly between critical and warning, and the status is CRITICAL (2),
not WARNING (1). -/
theorem executeCheck_inverted_between_not_warning :
    Float64.f90.gt Float64.f80 = true ∧
    Float64.f85.gt Float64.f80 = true ∧
    Float64.f90.gt Float64.f85 = true ∧
    (answering (oneSample Float64.f85)).NewClient
      (address (startWorld Float64.f80 Float64.f90).plugin) = .ok ⟨"http://prom:9090"⟩ ∧
    (answering (oneSample Float64.f85)).Query
      (startWorld Float64.f80 Float64.f90).queries.length ⟨"http://prom:9090"⟩
      (startWorld Float64.f80 Float64.f90).plugin.Query
        = ⟨.vector [sampleOf Float64.f85], [], none⟩ ∧
    (executeCheck (answering (oneSample Float64.f85))
      (startWorld Float64.f80 Float64.f90)).status = CheckStateCritical ∧
    (executeCheck (answering (oneSample Float64.f85))
      (startWorld Float64.f80 Float64.f90)).status ≠ CheckStateWarning := by
  refine ⟨?_, ?_, ?_, rfl, ?_, ?_, ?_⟩ <;> decide

/-- C9, amended: with inverted thresholds (warning > critical) every
single-sample value strictly between critical and warning is reported
CRITICAL; and whenever warning >= critical every value above critical is
reported CRITICAL. -/
theorem executeCheck_inverted_thresholds (lib : Library) (w : World) (client : Client)
    (metric : Sample)
    (hc : lib.NewClient (address w.plugin) = .ok client)
    (hq : lib.Query w.queries.length client w.plugin.Query = ⟨.vector [metric], [], none⟩) :
    (w.plugin.Warning.gt w.plugin.Critical = true →
      metric.Value.gt w.plugin.Critical = true →
      w.plugin.Warning.gt metric.Value = true →
      (executeCheck lib w).status = CheckStateCritical) ∧
    (w.plugin.Critical.le w.plugin.Warning = true →
      metric.Value.gt w.plugin.Critical = true →
      (executeCheck lib w).status = CheckStateCritical) := by
  rw [executeCheck_one_sample hc hq]
  constructor
  · intro _ hgt _
    rw [if_pos hgt]
  · intro _ hgt
    rw [if_pos hgt]

theorem executeCheck_inverted_thresholds_witness :
    (executeCheck (answering (oneSample Float64.f85))
      (startWorld Float64.f80 Float64.f90)).status = CheckStateCritical ∧
    (executeCheck (answering (oneSample Float64.f95))
      (startWorld Float64.f80 Float64.f90)).status = CheckStateCritical :=
  ⟨(executeCheck_inverted_thresholds (answering (oneSample Float64.f85))
      (startWorld Float64.f80 Float64.f90) ⟨"http://prom:9090"⟩ (sampleOf Float64.f85)
      rfl (by decide)).1 (by decide) (by decide) (by decide),
   (executeCheck_inverted_thresholds (answering (oneSample Float64.f95))
      (startWorld Float64.f80 Float64.f90) ⟨"http://prom:9090"⟩ (sampleOf Float64.f95)
      rfl (by decide)).2 (by decide) (by decide)⟩

/-- With warning >= critical the status WARNING is never returned by the
threshold comparison. -/
theorem executeCheck_inverted_never_warning {lib : Library} {w : World} {client : Client}
    {metric : Sample}
    (hc : lib.NewClient (address w.plugin) = .ok client)
    (hq : lib.Query w.queries.length client w.plugin.Query = ⟨.vector [metric], [], none⟩)
    (hinv : w.plugin.Critical.le w.plugin.Warning = true) :
    (executeCheck lib w).status ≠ CheckStateWarning := by
  rw [executeCheck_one_sample hc hq]
  cases h1 : metric.Value.gt w.plugin.Critical
  · cases h2 : metric.Value.gt w.plugin.Warning
    · simp [CheckStateOK, CheckStateWarning]
    · rw [Float64.gt_of_gt_of_ge h2 hinv] at h1
      exact absurd h1 (by decide)
  · simp [CheckStateCritical, CheckStateWarning]

/-- C10: for fixed thresholds the threshold comparison is monotone in the
observed value: if `v₁ <= v₂`, the status returned for the single sample `v₁`
is at most the status returned for the single sample `v₂`. -/
theorem executeCheck_status_monotone (lib₁ lib₂ : Library) (w : World)
    (client₁ client₂ : Client) (metric₁ metric₂ : Sample)
    (hc₁ : lib₁.NewClient (address w.plugin) = .ok client₁)
    (hq₁ : lib₁.Query w.queries.length client₁ w.plugin.Query
      = ⟨.vector [metric₁], [], none⟩)
    (hc₂ : lib₂.NewClient (address w.plugin) = .ok client₂)
    (hq₂ : lib₂.Query w.queries.length client₂ w.plugin.Query
      = ⟨.vector [metric₂], [], none⟩)
    (hle : metric₁.Value.le metric₂.Value = true) :
    (executeCheck lib₁ w).status ≤ (executeCheck lib₂ w).status := by
  rw [executeCheck_one_sample hc₁ hq₁, executeCheck_one_sample hc₂ hq₂]
  cases h1 : metric₁.Value.gt w.plugin.Critical
  · cases h2 : metric₁.Value.gt w.plugin.Warning
    · cases h3 : metric₂.Value.gt w.plugin.Critical <;>
        cases h4 : metric₂.Value.gt w.plugin.Warning <;>
        simp [CheckStateCritical, CheckStateWarning, CheckStateOK]
    · rw [Float64.gt_of_gt_of_le h2 hle]
      cases h3 : metric₂.Value.gt w.plugin.Critical <;>
        simp [CheckStateCritical, CheckStateWarning, CheckStateOK]
  · rw [Float64.gt_of_gt_of_le h1 hle]
    simp

theorem executeCheck_status_monotone_witness :
    Float64.f85.le Float64.f95 = true ∧
    (executeCheck (answering (oneSample Float64.f85))
      (startWorld Float64.f90 Float64.f80)).status ≤
    (executeCheck (answering (oneSample Float64.f95))
      (startWorld Float64.f90 Float64.f80)).status :=
  ⟨by decide, executeCheck_status_monotone (answering (oneSample Float64.f85))
    (answering (oneSample Float64.f95)) (startWorld Float64.f90 Float64.f80)
    ⟨"http://prom:9090"⟩ ⟨"http://prom:9090"⟩ (sampleOf Float64.f85) (sampleOf Float64.f95)
    rfl (by decide) rfl (by decide) (by decide)⟩

/-! ## Error paths of `executeCheck` -/

/-- C3: when the query returns no error and a non-empty list of warnings,
`executeCheck` returns WARNING (1) with the error `warnings: [w₁ w₂ …]`,
whatever the result, its type, its samples and the thresholds are, and writes
nothing to standard output. -/
theorem executeCheck_backend_warnings (lib : Library) (w : World) (client : Client)
    (hc : lib.NewClient (address w.plugin) = .ok client)
    (he : (lib.Query w.queries.length client w.plugin.Query).err = none)
    (hw : (lib.Query w.queries.length client w.plugin.Query).warnings ≠ []) :
    (executeCheck lib w).status = CheckStateWarning ∧
    (executeCheck lib w).err = some (Errorf ("warnings: [" ++ " ".intercalate
      (lib.Query w.queries.length client w.plugin.Query).warnings ++ "]")) ∧
    (executeCheck lib w).world.stdout = w.stdout := by
  rw [executeCheck_warnings hc he hw]
  refine ⟨rfl, ?_, rfl⟩
  have hopen : "warnings: " ++ "[" = "warnings: [" := by decide
  simp only [fmtStrings, Errorf, ← String.append_assoc, hopen]

theorem executeCheck_backend_warnings_witness :
    (answering warnedReply).NewClient (address (startWorld Float64.f90 Float64.f80).plugin)
      = .ok ⟨"http://prom:9090"⟩ ∧
    warnedReply.err = none ∧ warnedReply.warnings ≠ [] ∧
    (executeCheck (answering warnedReply) (startWorld Float64.f90 Float64.f80)).status
      = CheckStateWarning ∧
    (executeCheck (answering warnedReply) (startWorld Float64.f90 Float64.f80)).err
      = some (Errorf ("warnings: [" ++ " ".intercalate warnedReply.warnings ++ "]")) ∧
    (executeCheck (answering warnedReply) (startWorld Float64.f90 Float64.f80)).world.stdout
      = [] :=
  ⟨rfl, rfl, by decide,
    executeCheck_backend_warnings (answering warnedReply)
      (startWorld Float64.f90 Float64.f80) ⟨"http://prom:9090"⟩ rfl rfl (by decide)⟩

/-- C4: after a successful query without warnings that returns a vector whose
number of samples is not one, `executeCheck` returns CRITICAL (2) with the
error `no metrics returned` for an empty vector and
`more than one metric returned` otherwise, and writes nothing: the outcome is
a function of the number of samples only, not of their values nor of the
thresholds. -/
theorem executeCheck_sample_count (lib : Library) (w : World) (client : Client)
    (vector : List Sample)
    (hc : lib.NewClient (address w.plugin) = .ok client)
    (hq : lib.Query w.queries.length client w.plugin.Query = ⟨.vector vector, [], none⟩)
    (hn : vector.length ≠ 1) :
    executeCheck lib w = ⟨CheckStateCritical,
      some (Errorf (if vector.length = 0 then "no metrics returned"
        else "more than one metric returned")),
      w.logQuery client⟩ ∧
    (executeCheck lib w).world.stdout = w.stdout := by
  match vector, hq, hn with
  | [], hq, _ =>
    rw [executeCheck_no_sample hc hq]
    exact ⟨rfl, rfl⟩
  | [_], _, hn => exact absurd rfl hn
  | _ :: _ :: _, hq, _ =>
    rw [executeCheck_many_samples hc hq]
    exact ⟨rfl, rfl⟩

theorem executeCheck_sample_count_witness :
    executeCheck (answering ⟨.vector [sampleOf Float64.f95, sampleOf Float64.f50], [], none⟩)
        (startWorld Float64.f90 Float64.f80)
      = ⟨CheckStateCritical, some (Errorf "more than one metric returned"),
          (startWorld Float64.f90 Float64.f80).logQuery ⟨"http://prom:9090"⟩⟩ ∧
    executeCheck (answering ⟨.vector [], [], none⟩) (startWorld Float64.f90 Float64.f80)
      = ⟨CheckStateCritical, some (Errorf "no metrics returned"),
          (startWorld Float64.f90 Float64.f80).logQuery ⟨"http://prom:9090"⟩⟩ :=
  ⟨(executeCheck_sample_count
      (answering ⟨.vector [sampleOf Float64.f95, sampleOf Float64.f50], [], none⟩)
      (startWorld Float64.f90 Float64.f80) ⟨"http://prom:9090"⟩
      [sampleOf Float64.f95, sampleOf Float64.f50] rfl rfl (by decide)).1,
   (executeCheck_sample_count (answering ⟨.vector [], [], none⟩)
      (startWorld Float64.f90 Float64.f80) ⟨"http://prom:9090"⟩ [] rfl rfl (by decide)).1⟩

/-- C5: after a successful query without warnings whose result is not a
vector, `executeCheck` returns CRITICAL (2) with the error
`unexpected result type ` followed by the name of the result's type, whatever
the thresholds and the values in the result are, and writes nothing. -/
theorem executeCheck_unexpected_type (lib : Library) (w : World) (client : Client)
    (hc : lib.NewClient (address w.plugin) = .ok client)
    (he : (lib.Query w.queries.length client w.plugin.Query).err = none)
    (hw : (lib.Query w.queries.length client w.plugin.Query).warnings = [])
    (ht : (lib.Query w.queries.length client w.plugin.Query).result.Type
      ≠ ValueType.ValVector) :
    (executeCheck lib w).status = CheckStateCritical ∧
    (executeCheck lib w).err = some (Errorf ("unexpected result type " ++
      (lib.Query w.queries.length client w.plugin.Query).result.Type.String)) ∧
    (executeCheck lib w).world.stdout = w.stdout := by
  rw [executeCheck_not_vector hc he hw ht]
  exact ⟨rfl, rfl, rfl⟩

theorem executeCheck_unexpected_type_witness :
    (Value.scalar Float64.f95 0).Type ≠ ValueType.ValVector ∧
    (executeCheck (answering ⟨.scalar Float64.f95 0, [], none⟩)
      (startWorld Float64.f90 Float64.f80)).status = CheckStateCritical ∧
    (executeCheck (answering ⟨.scalar Float64.f95 0, [], none⟩)
      (startWorld Float64.f90 Float64.f80)).err
        = some (Errorf ("unexpected result type " ++ (Value.scalar Float64.f95 0).Type.String)) ∧
    (executeCheck (answering ⟨.scalar Float64.f95 0, [], none⟩)
      (startWorld Float64.f90 Float64.f80)).world.stdout = [] :=
  ⟨by decide, executeCheck_unexpected_type (answering ⟨.scalar Float64.f95 0, [], none⟩)
    (startWorld Float64.f90 Float64.f80) ⟨"http://prom:9090"⟩ rfl rfl rfl (by decide)⟩

/-- Concrete runs of the error paths: the texts of the errors. -/
theorem executeCheck_error_examples :
    (executeCheck (answering warnedReply) (startWorld Float64.f90 Float64.f80)).err
      = some ⟨"warnings: [slow query partial data]"⟩ ∧
    (executeCheck (answering ⟨.scalar Float64.f95 0, [], none⟩)
      (startWorld Float64.f90 Float64.f80)).err
      = some ⟨"unexpected result type scalar"⟩ ∧
    (executeCheck (answering ⟨.matrix [], [], none⟩)
      (startWorld Float64.f90 Float64.f80)).err
      = some ⟨"unexpected result type matrix"⟩ ∧
    (executeCheck (answering ⟨.string "x" 0, [], none⟩)
      (startWorld Float64.f90 Float64.f80)).err
      = some ⟨"unexpected result type string"⟩ := by
  refine ⟨?_, ?_, ?_, ?_⟩ <;> decide

/-- C6: when `api.NewClient` fails with `e`, or the one call of
`promClient.Query` fails with `e` (the deadline having passed is such a
failure), `executeCheck` returns CRITICAL (2) with that same `e`, whatever the
thresholds, the result and the warnings are; it writes nothing, and it has
sent no query in the first case and exactly one in the second. -/
theorem executeCheck_connectivity_error (lib : Library) (w : World) (e : GoError)
    (h : lib.NewClient (address w.plugin) = .error e ∨
      ∃ client, lib.NewClient (address w.plugin) = .ok client ∧
        (lib.Query w.queries.length client w.plugin.Query).err = some e) :
    (executeCheck lib w).status = CheckStateCritical ∧
    (executeCheck lib w).err = some e ∧
    (executeCheck lib w).world.stdout = w.stdout ∧
    (executeCheck lib w).world.plugin = w.plugin ∧
    (lib.NewClient (address w.plugin) = .error e →
      (executeCheck lib w).world.queries = w.queries) ∧
    (∀ client, lib.NewClient (address w.plugin) = .ok client →
      (executeCheck lib w).world.queries = w.queries ++ [(client, w.plugin.Query)]) := by
  rcases h with hc | ⟨client, hc, he⟩
  · rw [executeCheck_client_error hc]
    refine ⟨rfl, rfl, rfl, rfl, fun _ => rfl, ?_⟩
    intro client hc2
    rw [hc] at hc2
    cases hc2
  · rw [executeCheck_query_error hc he]
    refine ⟨rfl, rfl, rfl, rfl, ?_, ?_⟩
    · intro hc2
      rw [hc] at hc2
      cases hc2
    · intro client2 hc2
      rw [hc] at hc2
      cases hc2
      rfl

theorem executeCheck_connectivity_error_witness :
    ((executeCheck (unreachable ⟨"invalid port"⟩) (startWorld Float64.f90 Float64.f80)).status
        = CheckStateCritical ∧
      (executeCheck (unreachable ⟨"invalid port"⟩) (startWorld Float64.f90 Float64.f80)).err
        = some ⟨"invalid port"⟩ ∧
      (executeCheck (unreachable ⟨"invalid port"⟩)
        (startWorld Float64.f90 Float64.f80)).world.stdout = [] ∧
      (executeCheck (unreachable ⟨"invalid port"⟩)
        (startWorld Float64.f90 Float64.f80)).world.queries = []) ∧
    ((executeCheck (answering timedOutReply) (startWorld Float64.f90 Float64.f80)).status
        = CheckStateCritical ∧
      (executeCheck (answering timedOutReply) (startWorld Float64.f90 Float64.f80)).err
        = some ⟨"context deadline exceeded"⟩ ∧
      (executeCheck (answering timedOutReply) (startWorld Float64.f90 Float64.f80)).world.stdout
        = [] ∧
      (executeCheck (answering timedOutReply) (startWorld Float64.f90 Float64.f80)).world.queries
        = [(⟨"http://prom:9090"⟩, "up")]) :=
  ⟨by
    have h := executeCheck_connectivity_error (unreachable ⟨"invalid port"⟩)
      (startWorld Float64.f90 Float64.f80) ⟨"invalid port"⟩ (Or.inl rfl)
    exact ⟨h.1, h.2.1, h.2.2.1, h.2.2.2.2.1 rfl⟩,
   by
    have h := executeCheck_connectivity_error (answering timedOutReply)
      (startWorld Float64.f90 Float64.f80) ⟨"context deadline exceeded"⟩
      (Or.inr ⟨⟨"http://prom:9090"⟩, rfl, rfl⟩)
    exact ⟨h.1, h.2.1, h.2.2.1, h.2.2.2.2.2 ⟨"http://prom:9090"⟩ rfl⟩⟩

/-! ## Standard output -/

/-- C8: `executeCheck` writes to standard output exactly when it reaches the
threshold comparison (client built, query without error and without warnings,
vector of exactly one sample).  It then returns no error and writes the one
text `CheckPrometheusMetric <STATUS>: <query> is <value>`, with the configured
query, the `%f` text of the sample's value, and OK, WARNING or CRITICAL for
the returned status 0, 1 or 2; on every other path, and whenever it returns
an error, standard output is left as it was. -/
theorem executeCheck_output (lib : Library) (w : World) :
    (∀ client metric, lib.NewClient (address w.plugin) = .ok client →
      lib.Query w.queries.length client w.plugin.Query = ⟨.vector [metric], [], none⟩ →
      (executeCheck lib w).err = none ∧
      ((executeCheck lib w).status = CheckStateOK ∨
        (executeCheck lib w).status = CheckStateWarning ∨
        (executeCheck lib w).status = CheckStateCritical) ∧
      (executeCheck lib w).world.stdout = w.stdout ++
        ["CheckPrometheusMetric " ++ statusWord (executeCheck lib w).status ++ ": "
          ++ w.plugin.Query ++ " is " ++ lib.fmtFloat metric.Value]) ∧
    ((¬ ∃ client metric, lib.NewClient (address w.plugin) = .ok client ∧
        lib.Query w.queries.length client w.plugin.Query = ⟨.vector [metric], [], none⟩) →
      (executeCheck lib w).world.stdout = w.stdout) ∧
    ((executeCheck lib w).err ≠ none → (executeCheck lib w).world.stdout = w.stdout) := by
  have hA : ∀ client metric, lib.NewClient (address w.plugin) = .ok client →
      lib.Query w.queries.length client w.plugin.Query = ⟨.vector [metric], [], none⟩ →
      (executeCheck lib w).err = none ∧
      ((executeCheck lib w).status = CheckStateOK ∨
        (executeCheck lib w).status = CheckStateWarning ∨
        (executeCheck lib w).status = CheckStateCritical) ∧
      (executeCheck lib w).world.stdout = w.stdout ++
        ["CheckPrometheusMetric " ++ statusWord (executeCheck lib w).status ++ ": "
          ++ w.plugin.Query ++ " is " ++ lib.fmtFloat metric.Value] := by
    intro client metric hc hq
    have hcrit : "CheckPrometheusMetric " ++ statusWord CheckStateCritical ++ ": "
        = "CheckPrometheusMetric CRITICAL: " := by decide
    have hwarn : "CheckPrometheusMetric " ++ statusWord CheckStateWarning ++ ": "
        = "CheckPrometheusMetric WARNING: " := by decide
    have hok : "CheckPrometheusMetric " ++ statusWord CheckStateOK ++ ": "
        = "CheckPrometheusMetric OK: " := by decide
    rw [executeCheck_one_sample hc hq]
    cases h1 : metric.Value.gt w.plugin.Critical
    · cases h2 : metric.Value.gt w.plugin.Warning
      · simp [hok, World.printf, World.logQuery]
      · simp [hwarn, World.printf, World.logQuery]
    · simp [hcrit, World.printf, World.logQuery]
  have hB : (¬ ∃ client metric, lib.NewClient (address w.plugin) = .ok client ∧
        lib.Query w.queries.length client w.plugin.Query = ⟨.vector [metric], [], none⟩) →
      (executeCheck lib w).world.stdout = w.stdout := by
    intro hno
    cases hc : lib.NewClient (address w.plugin) with
    | error e => rw [executeCheck_client_error hc]
    | ok client =>
      cases hq : lib.Query w.queries.length client w.plugin.Query with
      | mk result warnings err =>
        cases err with
        | some e =>
          rw [executeCheck_query_error hc (by rw [hq])]
          rfl
        | none =>
          cases warnings with
          | cons x xs =>
            rw [executeCheck_warnings hc (by rw [hq]) (by rw [hq]; simp)]
            rfl
          | nil =>
            cases result with
            | vector vector =>
              match vector, hq with
              | [], hq =>
                rw [executeCheck_no_sample hc hq]
                rfl
              | [metric], hq => exact absurd ⟨client, metric, hc, hq⟩ hno
              | _ :: _ :: _, hq =>
                rw [executeCheck_many_samples hc hq]
                rfl
            | scalar v t =>
              rw [executeCheck_not_vector hc (by rw [hq]) (by rw [hq]) (by rw [hq]; simp [Value.Type])]
              rfl
            | matrix m =>
              rw [executeCheck_not_vector hc (by rw [hq]) (by rw [hq]) (by rw [hq]; simp [Value.Type])]
              rfl
            | string v t =>
              rw [executeCheck_not_vector hc (by rw [hq]) (by rw [hq]) (by rw [hq]; simp [Value.Type])]
              rfl
  refine ⟨hA, hB, ?_⟩
  intro herr
  by_cases hreach : ∃ client metric, lib.NewClient (address w.plugin) = .ok client ∧
      lib.Query w.queries.length client w.plugin.Query = ⟨.vector [metric], [], none⟩
  · obtain ⟨client, metric, hc, hq⟩ := hreach
    exact absurd (hA client metric hc hq).1 herr
  · exact hB hreach

theorem executeCheck_output_witness :
    (executeCheck (answering (oneSample Float64.f85))
      (startWorld Float64.f90 Float64.f80)).err = none ∧
    (executeCheck (answering (oneSample Float64.f85))
      (startWorld Float64.f90 Float64.f80)).world.stdout =
        (startWorld Float64.f90 Float64.f80).stdout ++
        ["CheckPrometheusMetric " ++ statusWord (executeCheck (answering (oneSample Float64.f85))
            (startWorld Float64.f90 Float64.f80)).status ++ ": "
          ++ (startWorld Float64.f90 Float64.f80).plugin.Query ++ " is "
          ++ (answering (oneSample Float64.f85)).fmtFloat (sampleOf Float64.f85).Value] ∧
    (executeCheck (answering warnedReply)
      (startWorld Float64.f90 Float64.f80)).world.stdout = [] :=
  ⟨((executeCheck_output (answering (oneSample Float64.f85))
      (startWorld Float64.f90 Float64.f80)).1 ⟨"http://prom:9090"⟩ (sampleOf Float64.f85)
      rfl (by decide)).1,
   ((executeCheck_output (answering (oneSample Float64.f85))
      (startWorld Float64.f90 Float64.f80)).1 ⟨"http://prom:9090"⟩ (sampleOf Float64.f85)
      rfl (by decide)).2.2,
   (executeCheck_output (answering warnedReply)
      (startWorld Float64.f90 Float64.f80)).2.2 (by decide)⟩

/-- Concrete runs of the threshold comparison: the texts written. -/
theorem executeCheck_output_examples :
    (executeCheck (answering (oneSample Float64.f95))
      (startWorld Float64.f90 Float64.f80)).world.stdout
      = ["CheckPrometheusMetric CRITICAL: up is 95.000000"] ∧
    (executeCheck (answering (oneSample Float64.f85))
      (startWorld Float64.f90 Float64.f80)).world.stdout
      = ["CheckPrometheusMetric WARNING: up is 85.000000"] ∧
    (executeCheck (answering (oneSample Float64.f80))
      (startWorld Float64.f90 Float64.f80)).world.stdout
      = ["CheckPrometheusMetric OK: up is 80.000000"] ∧
    (executeCheck (answering ⟨.vector [], [], none⟩)
      (startWorld Float64.f90 Float64.f80)).world.stdout = [] := by
  refine ⟨?_, ?_, ?_, ?_⟩ <;> decide

end CheckPrometheusMetric
